import Mathlib

/-!
Verification of the interactive terminal session controller of the
`chat_app_cli` repository (Go). The definitions below are a shallow
embedding of the Go source: pure string helpers mirror the `strings` /
`strconv` functions the code calls, the friend-request flow mirrors
`handleFriendRequestResponse`, the compose flow mirrors
`handleSendMessage`, and the raw-mode key loop mirrors
`waitForCtrlRInReceiveMessage` together with the `makeRaw` / `restore`
termios wrappers. External collaborators (HTTP endpoints, the terminal
device) are modelled as oracles supplied through explicit environment
records, and observable behaviour (prints, network calls, raw-mode
toggles) is recorded as a trace of events.
-/

namespace ChatAppCli

/-! ## Go string/number helpers used by the flows -/

/-- `unicode.IsSpace` as used by `strings.TrimSpace` in Go: the Unicode
white-space code points. -/
def goIsSpace (c : Char) : Bool :=
  c.toNat = 32 || c.toNat = 9 || c.toNat = 10 || c.toNat = 11 ||
  c.toNat = 12 || c.toNat = 13 || c.toNat = 0x85 || c.toNat = 0xA0 ||
  c.toNat = 0x1680 || (0x2000 ≤ c.toNat && c.toNat ≤ 0x200A) ||
  c.toNat = 0x2028 || c.toNat = 0x2029 || c.toNat = 0x202F ||
  c.toNat = 0x205F || c.toNat = 0x3000

/-- Go `strings.TrimSpace`: drop leading and trailing white space. -/
def goTrimSpace (s : String) : String :=
  ⟨((s.data.dropWhile goIsSpace).reverse.dropWhile goIsSpace).reverse⟩

/-- ASCII lowering of one character; this is what Go `strings.ToLower`
does on the ASCII range (the status keywords compared by the code are
ASCII, so the full Unicode case tables are not needed). -/
def asciiToLower (c : Char) : Char :=
  if 65 ≤ c.toNat ∧ c.toNat ≤ 90 then Char.ofNat (c.toNat + 32) else c

/-- Go `strings.ToLower` restricted to the ASCII range. -/
def goToLower (s : String) : String :=
  ⟨s.data.map asciiToLower⟩

/-- Accumulating decimal-digit parser: fails on the first non-digit. -/
def parseDigitsAux : Nat → List Char → Option Nat
  | acc, [] => some acc
  | acc, c :: rest =>
      if c.isDigit then parseDigitsAux (acc * 10 + (c.toNat - 48)) rest
      else none

/-- A non-empty run of decimal digits, as required by `strconv.Atoi`. -/
def parseDigits (cs : List Char) : Option Nat :=
  match cs with
  | [] => none
  | _ => parseDigitsAux 0 cs

/-- Go `strconv.Atoi`: optional sign, then one or more digits making up
the whole string; anything else is an error (`none`). An out-of-range
value also yields a non-nil error in Go, so it is `none` here as well —
every caller in this code only tests whether the error is nil. -/
def goAtoi (s : String) : Option Int :=
  match s.data with
  | [] => none
  | c :: rest =>
      let signed : Bool × List Char :=
        if c = '-' then (true, rest)
        else if c = '+' then (false, rest)
        else (false, c :: rest)
      match parseDigits signed.2 with
      | none => none
      | some n =>
          let v : Int := if signed.1 then -(n : Int) else (n : Int)
          if v < -(2 ^ 63) ∨ v > 2 ^ 63 - 1 then none else some v

/-! ## Friend-request data model (types.go) -/

/-- `IncomingFriendRequest` from types.go. -/
structure IncomingFriendRequest where
  RecipientUserID : String
  RecipientUsername : String
  RequestData : String
  RequestID : Int
  SenderUserID : String
  SenderUsername : String
  Status : String
  Timestamp : String
  deriving Repr, DecidableEq

/-- The eligibility test of `handleFriendRequestResponse`:
`strings.ToLower(request.Status) == "pending" ||
 strings.ToLower(request.Status) == "rejected"`. -/
def isRespondable (r : IncomingFriendRequest) : Bool :=
  goToLower r.Status == "pending" || goToLower r.Status == "rejected"

/-- The filtering loop at the top of `handleFriendRequestResponse`:
a range loop appending each eligible record to `respondableRequests`. -/
def respondableRequests (requests : List IncomingFriendRequest) :
    List IncomingFriendRequest :=
  requests.foldl (fun acc r => if isRespondable r then acc ++ [r] else acc) []

/-- The append-loop computes `List.filter`, with any starting
accumulator. -/
theorem respondableRequests_foldl (l : List IncomingFriendRequest)
    (acc : List IncomingFriendRequest) :
    l.foldl (fun acc r => if isRespondable r then acc ++ [r] else acc) acc
      = acc ++ l.filter isRespondable := by
  induction l generalizing acc with
  | nil => simp
  | cons r rest ih =>
      by_cases h : isRespondable r <;>
        simp [List.foldl_cons, h, ih, List.filter_cons]

/-- `respondableRequests` is exactly `List.filter isRespondable`. -/
theorem respondableRequests_eq_filter (l : List IncomingFriendRequest) :
    respondableRequests l = l.filter isRespondable := by
  simpa using respondableRequests_foldl l []

/-- Example record constructor used in the concrete test vectors. -/
def mkRequest (id : Int) (status : String) : IncomingFriendRequest :=
  { RecipientUserID := "me", RecipientUsername := "me"
    RequestData := "", RequestID := id
    SenderUserID := "s", SenderUsername := "sender"
    Status := status, Timestamp := "t" }

/-- The three-record test vector of the spec:
statuses accepted / pending / rejected with ids 1, 2, 3. -/
def exampleRequests : List IncomingFriendRequest :=
  [mkRequest 1 "accepted", mkRequest 2 "pending", mkRequest 3 "rejected"]

/-- Claim C3: the eligibility filter of the respond sub-flow keeps
exactly the records whose (lowercased) status is `pending` or
`rejected`, in their original order (it is `List.filter`, which is
order-preserving), never keeps a record whose status is `accepted`,
and on the spec's three-record vector it returns exactly the records
with ids 2 and 3. -/
theorem respondable_filter_spec :
    (∀ l : List IncomingFriendRequest,
        respondableRequests l =
          l.filter (fun r => goToLower r.Status == "pending" ||
                             goToLower r.Status == "rejected")) ∧
    (∀ r : IncomingFriendRequest,
        isRespondable { r with Status := "accepted" } = false) ∧
    respondableRequests exampleRequests
      = [mkRequest 2 "pending", mkRequest 3 "rejected"] := by
  refine ⟨fun l => respondableRequests_eq_filter l, fun r => ?_, ?_⟩
  · rfl
  · rfl

/-- Claim C10: the status comparison is case-insensitive: the record is
eligible exactly when the ASCII-lowercased status is `pending` or
`rejected`; hence every capitalization of `pending` / `rejected` is
eligible and every capitalization of `accepted` is excluded
(checked on `Pending`, `REJECTED`, `Accepted`, `ACCEPTED`). -/
theorem respondable_case_insensitive :
    (∀ r : IncomingFriendRequest,
        isRespondable r = true ↔
          goToLower r.Status = "pending" ∨ goToLower r.Status = "rejected") ∧
    isRespondable (mkRequest 1 "Pending") = true ∧
    isRespondable (mkRequest 1 "REJECTED") = true ∧
    isRespondable (mkRequest 1 "Accepted") = false ∧
    isRespondable (mkRequest 1 "ACCEPTED") = false := by
  refine ⟨fun r => ?_, rfl, rfl, rfl, rfl⟩
  simp [isRespondable, Bool.or_eq_true, beq_iff_eq]

/-! ## Observable events

Each external effect of the flows is recorded as one trace event.
Formatted payloads of error prints (the `%v` parts) are elided; the
fixed message prefixes are kept. `fetch`, `send` and `respond` are the
network calls made through the external API collaborators. -/

inductive Ev where
  | rawEnter
  | restoreCall (validTok : Bool)
  | print (s : String)
  | fetch (peerId : String)
  | send (peerId : String) (body : String)
  | respond (user : String) (act : String)
  deriving Repr, DecidableEq

def isSendEv : Ev → Bool
  | Ev.send _ _ => true
  | _ => false

def isFetchEv : Ev → Bool
  | Ev.fetch _ => true
  | _ => false

def isRespondEv : Ev → Bool
  | Ev.respond _ _ => true
  | _ => false

def isNetworkEv : Ev → Bool
  | Ev.fetch _ => true
  | Ev.send _ _ => true
  | Ev.respond _ _ => true
  | _ => false

def isRawEnterEv : Ev → Bool
  | Ev.rawEnter => true
  | _ => false

def isRestoreEv : Ev → Bool
  | Ev.restoreCall _ => true
  | _ => false

/-! ## Compose-and-send handler (`handleSendMessage`) -/

/-- The oracle for one invocation of `handleSendMessage`: the line the
`bufio` reader returns (`none` = read error), and whether the
`sendMessageToFriend` and the automatic `fetchConversation` calls
succeed. -/
structure ComposeEnv where
  line : Option String
  sendOk : Bool
  fetchOk : Bool
  deriving Repr, DecidableEq

/-- Result of a handler: its trace and its Go error return
(`none` = the handler returned `nil`). -/
structure HandlerOut where
  trace : List Ev
  errMsg : Option String
  deriving Repr, DecidableEq

/-- `handleSendMessage` from receive_message.go: prompt, read a line,
trim it; an empty-after-trim body prints a cancellation message and
returns `nil` without sending; otherwise `sendMessageToFriend` is
called with the friend's user id, and on success one automatic
`fetchConversation` with the same friend follows (a fetch failure is
only printed, the handler still returns `nil`). -/
def handleSendMessage (friendUsername friendUserID : String)
    (env : ComposeEnv) : HandlerOut :=
  let pre := [Ev.print ("Sending message to: " ++ friendUsername),
              Ev.print "Enter your message: "]
  match env.line with
  | none => { trace := pre, errMsg := some "error reading message input" }
  | some raw =>
      let message := goTrimSpace raw
      if message = "" then
        { trace := pre ++
            [Ev.print "Message cannot be empty. Message sending cancelled."]
          errMsg := none }
      else
        let t1 := pre ++ [Ev.print "📤 Sending message...",
                          Ev.send friendUserID message]
        if env.sendOk then
          let t2 := t1 ++
            [Ev.print ("✅ Message sent successfully to " ++ friendUsername ++ "!"),
             Ev.print "🔄 Refreshing conversation to show your message...",
             Ev.fetch friendUserID]
          if env.fetchOk then { trace := t2, errMsg := none }
          else { trace := t2 ++ [Ev.print "Error refreshing conversation:"]
                 errMsg := none }
        else { trace := t1, errMsg := some "failed to send message" }

/-- Claim C5: with an entered line that is empty after trimming, the
handler prints the cancellation message, returns `nil` (no crash, no
error propagated), and makes no send call; and whenever the trimmed
line is non-empty, the send call is made — exactly one, with the
trimmed body — so the network send happens only for a non-empty
trimmed body. -/
theorem sendMessage_empty_body_validation
    (fu fid : String) (env : ComposeEnv) (l : String)
    (hline : env.line = some l) :
    (goTrimSpace l = "" →
      (handleSendMessage fu fid env).errMsg = none ∧
      Ev.print "Message cannot be empty. Message sending cancelled."
        ∈ (handleSendMessage fu fid env).trace ∧
      (handleSendMessage fu fid env).trace.filter isSendEv = []) ∧
    (goTrimSpace l ≠ "" →
      (handleSendMessage fu fid env).trace.filter isSendEv
        = [Ev.send fid (goTrimSpace l)]) := by
  constructor
  · intro hempty
    simp [handleSendMessage, hline, hempty, isSendEv]
  · intro hne
    by_cases hsend : env.sendOk <;> by_cases hfetch : env.fetchOk <;>
      simp [handleSendMessage, hline, hne, hsend, hfetch, isSendEv,
        List.filter_append]

/-- Witness for C5 at a concrete input: the line `"  \t "` trims to
empty, so the handler returns `nil`, prints the cancellation message
and sends nothing. -/
theorem sendMessage_empty_body_validation_witness :
    (handleSendMessage "bob" "u2"
        { line := some "  \t ", sendOk := true, fetchOk := true }).errMsg
      = none ∧
    Ev.print "Message cannot be empty. Message sending cancelled."
      ∈ (handleSendMessage "bob" "u2"
          { line := some "  \t ", sendOk := true, fetchOk := true }).trace ∧
    (handleSendMessage "bob" "u2"
        { line := some "  \t ", sendOk := true, fetchOk := true }).trace.filter
        isSendEv = [] :=
  (sendMessage_empty_body_validation "bob" "u2"
    { line := some "  \t ", sendOk := true, fetchOk := true } "  \t " rfl).1
    (by decide)

/-! ## Respond sub-flow (`handleFriendRequestResponse`) -/

/-- The oracle for one invocation of `handleFriendRequestResponse`:
the two lines the `bufio` reader returns (`none` = read error) and
whether the `respondToFriendRequest` call succeeds. -/
structure RespondEnv where
  line1 : Option String
  line2 : Option String
  respondOk : Bool
  deriving Repr, DecidableEq

/-- The numbered listing printed for the eligible records
(`i+1. From: sender (Status: st, Request ID: id)` for each). -/
def listingPrints (respondable : List IncomingFriendRequest) : List Ev :=
  (List.range respondable.length).zip respondable |>.map fun p =>
    Ev.print (toString (p.1 + 1) ++ ". From: " ++ p.2.SenderUsername ++
      " (Status: " ++ p.2.Status ++ ", Request ID: " ++
      toString p.2.RequestID ++ ")")

/-- `handleFriendRequestResponse` from friend_requests.go: filter to the
eligible records; if none, report and return; otherwise list them,
read and parse a 1-based selection (`strconv.Atoi` failure or a value
outside `[1, count]` prints `Invalid request number.` and returns),
then read an accept/reject choice (anything but 1 or 2 prints
`Invalid choice.` and returns), and finally call
`respondToFriendRequest` with the selected sender's username. The
result is `none` only if the Go code would panic (indexing outside the
slice), which the range guard prevents. -/
def handleFriendRequestResponse (requests : List IncomingFriendRequest)
    (env : RespondEnv) : Option (List Ev) :=
  let respondable := respondableRequests requests
  if respondable.length = 0 then
    some [Ev.print "No pending or rejected friend requests to respond to.",
          Ev.print "Only requests with 'pending' or 'rejected' status can be responded to."]
  else
    let header := [Ev.print "=== Respond to Friend Requests ===",
                   Ev.print "Available requests (pending/rejected only):"] ++
      listingPrints respondable ++
      [Ev.print "Enter the number of the request to respond to: "]
    match env.line1 with
    | none => some (header ++ [Ev.print "Error reading input:"])
    | some raw1 =>
        let sel := goAtoi (goTrimSpace raw1)
        match sel with
        | none => some (header ++ [Ev.print "Invalid request number."])
        | some requestIndex =>
            if requestIndex < 1 ∨ requestIndex > (respondable.length : Int) then
              some (header ++ [Ev.print "Invalid request number."])
            else
              match respondable.get? (requestIndex.toNat - 1) with
              | none => none
              | some selected =>
                  let header2 := header ++
                    [Ev.print ("Selected request from: " ++ selected.SenderUsername),
                     Ev.print "1. Accept", Ev.print "2. Reject",
                     Ev.print "Enter your choice (1 or 2): "]
                  match env.line2 with
                  | none => some (header2 ++ [Ev.print "Error reading input:"])
                  | some raw2 =>
                      match goAtoi (goTrimSpace raw2) with
                      | none => some (header2 ++ [Ev.print "Invalid choice."])
                      | some actionChoice =>
                          if actionChoice ≠ 1 ∧ actionChoice ≠ 2 then
                            some (header2 ++ [Ev.print "Invalid choice."])
                          else
                            let act := if actionChoice = 1 then "accept" else "reject"
                            let t := header2 ++
                              [Ev.respond selected.SenderUsername act]
                            if env.respondOk then
                              some (t ++
                                [Ev.print ("Successfully " ++ act ++
                                   "ed friend request from " ++
                                   selected.SenderUsername ++ "!"),
                                 Ev.print "Program will now exit."])
                            else
                              some (t ++
                                [Ev.print "Error responding to friend request:"])

/-- The numbered listing consists of prints only, so it contains no
respond call. -/
theorem listingPrints_no_respond (l : List IncomingFriendRequest) :
    (listingPrints l).filter isRespondEv = [] := by
  rw [List.filter_eq_nil_iff]
  intro e he
  simp only [listingPrints, List.mem_map] at he
  obtain ⟨p, _, rfl⟩ := he
  simp [isRespondEv]

/-- Claim C6: if the selection line parses to no integer, or to an
integer outside `[1, count]` of the eligible list, the flow completes
without panicking (`some` trace), prints `Invalid request number.`,
and makes no `respondToFriendRequest` call. The hypothesis covers both
the non-numeric case (vacuously, `goAtoi` returns `none`) and the
out-of-range case. -/
theorem respond_invalid_selection_no_call
    (requests : List IncomingFriendRequest) (env : RespondEnv) (s : String)
    (hne : respondableRequests requests ≠ [])
    (hline : env.line1 = some s)
    (hbad : ∀ k : Int, goAtoi (goTrimSpace s) = some k →
        k < 1 ∨ (respondableRequests requests).length < k) :
    ∃ tr : List Ev, handleFriendRequestResponse requests env = some tr ∧
      tr.filter isRespondEv = [] ∧
      Ev.print "Invalid request number." ∈ tr := by
  have hlen : ¬ (respondableRequests requests).length = 0 := by
    simpa [List.length_eq_zero] using hne
  cases hsel : goAtoi (goTrimSpace s) with
  | none =>
      simp only [handleFriendRequestResponse, hline, hsel]
      rw [if_neg hlen]
      exact ⟨_, rfl,
        by simp [List.filter_append, listingPrints_no_respond, isRespondEv],
        by simp⟩
  | some k =>
      have hcond : k < 1 ∨ k > ((respondableRequests requests).length : Int) := by
        rcases hbad k hsel with h | h
        · exact Or.inl h
        · exact Or.inr h
      simp only [handleFriendRequestResponse, hline, hsel]
      rw [if_neg hlen, if_pos hcond]
      exact ⟨_, rfl,
        by simp [List.filter_append, listingPrints_no_respond, isRespondEv],
        by simp⟩

/-- Witness for C6: against the 2-item eligible list of the spec's
vector, both `"abc"` (non-numeric) and `"5"` (out of range) complete
without a respond call and with the validation message printed. -/
theorem respond_invalid_selection_no_call_witness :
    (∃ tr : List Ev,
        handleFriendRequestResponse exampleRequests
          { line1 := some "abc", line2 := some "1", respondOk := true }
          = some tr ∧
        tr.filter isRespondEv = [] ∧
        Ev.print "Invalid request number." ∈ tr) ∧
    (∃ tr : List Ev,
        handleFriendRequestResponse exampleRequests
          { line1 := some "5", line2 := some "1", respondOk := true }
          = some tr ∧
        tr.filter isRespondEv = [] ∧
        Ev.print "Invalid request number." ∈ tr) :=
  ⟨respond_invalid_selection_no_call exampleRequests
      { line1 := some "abc", line2 := some "1", respondOk := true } "abc"
      (by decide) rfl (by decide),
   respond_invalid_selection_no_call exampleRequests
      { line1 := some "5", line2 := some "1", respondOk := true } "5"
      (by decide) rfl (by decide)⟩

/-! ## Terminal Mode Switch (`makeRaw` / `restore`)

The Go code manipulates a `termios` struct through `ioctl` with the
Linux requests `TCGETS` (0x5401) and `TCSETS` (0x5402). The flag
constants below are the Linux values used by the `syscall` package:
`ICANON` = 2, `ECHO` = 8, `VMIN` = 6, `VTIME` = 5, `EFAULT` = 14. -/

/-- The `termios` struct declared in the Go source. -/
structure Termios where
  Iflag : Nat
  Oflag : Nat
  Cflag : Nat
  Lflag : Nat
  Cc : List Nat
  Ispeed : Nat
  Ospeed : Nat
  deriving Repr, DecidableEq

/-- Go's `&^` (AND NOT) on 32-bit flag words. -/
def andNot32 (x m : Nat) : Nat := x &&& (4294967295 ^^^ m)

/-- The raw-mode settings derived from a saved state in `makeRaw`:
`Lflag &^= ICANON | ECHO`, `Cc[VMIN] = 1`, `Cc[VTIME] = 0`. -/
def rawify (t : Termios) : Termios :=
  { t with Lflag := andNot32 t.Lflag (2 ||| 8)
           Cc := (t.Cc.set 6 1).set 5 0 }

/-- The `TCSETS` ioctl on the terminal device: with a valid argument
it installs the new settings; with a NULL user pointer (the `nil`
saved-state token converted through `unsafe.Pointer`) the kernel
returns `EFAULT` (14) and leaves the settings unchanged. Go itself
never dereferences the pointer, so no panic occurs either way. The
result is the new device settings and the errno. -/
def ioctlTCSETS (term : Termios) (arg : Option Termios) : Termios × Nat :=
  match arg with
  | none => (term, 14)
  | some t => (t, 0)

/-- `restore` from friend_requests.go (identical to
`restoreForReceiveMessage`): one `TCSETS` ioctl with the saved state,
returning the errno as the Go error. -/
def restore (term : Termios) (oldState : Option Termios) : Termios × Nat :=
  ioctlTCSETS term oldState

/-- `makeRaw` from the source, with one oracle bit for the success of
its ioctl pair: on success it returns the previous settings as the
saved-state token and installs the raw settings; on failure (either
ioctl) it returns `nil` and the device is unchanged. -/
def makeRaw (ok : Bool) (term : Termios) : Option Termios × Termios :=
  if ok then (some term, rawify term) else (none, term)

/-- Claim C9: calling `restore` with no valid saved state (a `nil`
token, i.e. raw mode was never successfully entered) is a no-op on the
terminal settings and does not crash: the ioctl receives a NULL
pointer, the kernel rejects it with `EFAULT`, the settings are
unchanged, and the Go wrapper just returns that errno as an error
value. With a valid token the same call installs exactly the saved
settings. -/
theorem restore_nil_token_noop (term : Termios) :
    (restore term none).1 = term ∧ (restore term none).2 = 14 ∧
    (∀ t : Termios, restore term (some t) = (t, 0)) :=
  ⟨rfl, rfl, fun _ => rfl⟩

/-- Witness for C9 at a concrete terminal state. -/
theorem restore_nil_token_noop_witness :
    (restore { Iflag := 1, Oflag := 2, Cflag := 3, Lflag := 10,
               Cc := List.replicate 20 0, Ispeed := 4, Ospeed := 5 } none).1
      = { Iflag := 1, Oflag := 2, Cflag := 3, Lflag := 10,
          Cc := List.replicate 20 0, Ispeed := 4, Ospeed := 5 } :=
  (restore_nil_token_noop _).1

/-! ## The raw-mode key loop (`waitForCtrlRInReceiveMessage`)

The loop is driven by three oracles: the results of successive
`os.Stdin.Read` calls, the success of successive `makeRaw` calls, the
results of the `fetchConversation` calls of the refresh branch, and
one `ComposeEnv` per compose branch. One Go subtlety is modelled
explicitly: the `defer restoreForReceiveMessage(fd, oldState)`
evaluates its arguments when the `defer` statement runs, so the
deferred restore always uses the token of the *initial* `makeRaw`,
even after the loop reassigns `oldState`; and `os.Exit` terminates the
process without running deferred calls. -/

/-- Result of one blocking `os.Stdin.Read`. -/
inductive ReadRes where
  | ok (b : Nat)
  | readErr
  deriving Repr, DecidableEq

/-- The oracle streams consumed by the loop. -/
structure LoopEnv where
  raws : List Bool
  fetchOks : List Bool
  composes : List ComposeEnv
  deriving Repr, DecidableEq

/-- Pop the next oracle bit (default `true` when the stream is
exhausted — runs that need a failure list it explicitly). -/
def nextBool : List Bool → Bool × List Bool
  | [] => (true, [])
  | b :: bs => (b, bs)

/-- Pop the next compose oracle. -/
def nextCompose : List ComposeEnv → ComposeEnv × List ComposeEnv
  | [] => ({ line := some "hi", sendOk := true, fetchOk := true }, [])
  | c :: cs => (c, cs)

/-- Mutable state of the loop body: the terminal device settings and
the current value of the `oldState` variable. -/
structure LoopSt where
  term : Termios
  tokCur : Option Termios
  deriving Repr, DecidableEq

/-- How the loop ends. -/
inductive LoopOutcome where
  | returned
  | exited (code : Nat)
  | blocked
  deriving Repr, DecidableEq

/-- Result of running the loop: the event trace, the final terminal
settings, how the loop ended, and the input not yet read. -/
structure RunOut where
  trace : List Ev
  term : Termios
  outcome : LoopOutcome
  readsLeft : List ReadRes
  deriving Repr, DecidableEq

/-- Outcome of one loop-body iteration on one byte. -/
inductive StepOut where
  | cont (st : LoopSt) (tr : List Ev) (env : LoopEnv)
  | ret (term : Termios) (tr : List Ev) (env : LoopEnv)
  | exit (code : Nat) (term : Termios) (tr : List Ev) (env : LoopEnv)
  deriving Repr, DecidableEq

/-- The fixed key-hint line reprinted after every action. -/
def keyHint : String :=
  "Press CTRL+R to refresh conversation, CTRL+S to send message, or CTRL+C to exit..."

/-- One iteration of the key loop on the byte just read, transcribing
the body of `waitForCtrlRInReceiveMessage`: byte 18 (CTRL+R) restores
the terminal, refreshes the conversation and re-enters raw mode; byte
19 (CTRL+S) restores, runs `handleSendMessage` and re-enters raw mode;
byte 3 (CTRL+C) prints the farewell and calls `os.Exit(0)` directly;
every other byte does nothing. A failed re-entry into raw mode prints
an error and returns from the loop (leaving the `oldState` variable
`nil`, though the deferred restore uses the initial token). -/
def stepByte (friendUsername friendUserID : String) (b : Nat)
    (st : LoopSt) (env : LoopEnv) : StepOut :=
  if b = 18 then
    let t1 := (restore st.term st.tokCur).1
    let (fOk, fRest) := nextBool env.fetchOks
    let tr := [Ev.restoreCall st.tokCur.isSome,
               Ev.print "🔄 Refreshing conversation...",
               Ev.fetch friendUserID] ++
      (if fOk then [] else [Ev.print "Error refreshing conversation:"]) ++
      [Ev.print keyHint]
    let (rOk, rRest) := nextBool env.raws
    let env1 : LoopEnv := { env with fetchOks := fRest, raws := rRest }
    if rOk then
      StepOut.cont { term := rawify t1, tokCur := some t1 }
        (tr ++ [Ev.rawEnter]) env1
    else
      StepOut.ret t1 (tr ++ [Ev.print "Error setting terminal to raw mode:"]) env1
  else if b = 19 then
    let t1 := (restore st.term st.tokCur).1
    let (cenv, cRest) := nextCompose env.composes
    let h := handleSendMessage friendUsername friendUserID cenv
    let tr := [Ev.restoreCall st.tokCur.isSome,
               Ev.print "💬 Send Message Mode"] ++ h.trace ++
      (match h.errMsg with
       | some _ => [Ev.print "Error sending message:"]
       | none => []) ++
      [Ev.print keyHint]
    let (rOk, rRest) := nextBool env.raws
    let env1 : LoopEnv := { env with composes := cRest, raws := rRest }
    if rOk then
      StepOut.cont { term := rawify t1, tokCur := some t1 }
        (tr ++ [Ev.rawEnter]) env1
    else
      StepOut.ret t1 (tr ++ [Ev.print "Error setting terminal to raw mode:"]) env1
  else if b = 3 then
    StepOut.exit 0 st.term [Ev.print "Exiting..."] env
  else
    StepOut.cont st [] env

/-- The read loop after a successful initial raw entry. `tok0` is the
token captured by the `defer` statement; on every `return` path the
deferred restore runs with it, while `os.Exit` skips it. An exhausted
input stream leaves the loop blocked on the next read. -/
def loopGo (friendUsername friendUserID : String) (tok0 : Termios) :
    LoopSt → LoopEnv → List ReadRes → RunOut
  | st, _env, [] =>
      { trace := [], term := st.term, outcome := LoopOutcome.blocked,
        readsLeft := [] }
  | st, _env, ReadRes.readErr :: rest =>
      { trace := [Ev.print "Error reading input:", Ev.restoreCall true],
        term := (restore st.term (some tok0)).1,
        outcome := LoopOutcome.returned, readsLeft := rest }
  | st, env, ReadRes.ok b :: rest =>
      match stepByte friendUsername friendUserID b st env with
      | StepOut.cont st1 tr env1 =>
          let r := loopGo friendUsername friendUserID tok0 st1 env1 rest
          { r with trace := tr ++ r.trace }
      | StepOut.ret tm tr _env1 =>
          { trace := tr ++ [Ev.restoreCall true],
            term := (restore tm (some tok0)).1,
            outcome := LoopOutcome.returned, readsLeft := rest }
      | StepOut.exit c tm tr _env1 =>
          { trace := tr, term := tm, outcome := LoopOutcome.exited c,
            readsLeft := rest }

/-- `waitForCtrlRInReceiveMessage`: the initial `makeRaw`; on failure
print the error and return before reading anything (no `defer` is
registered yet); on success register the deferred restore with the
initial token and run the read loop. -/
def waitForCtrlRInReceiveMessage (friendUsername friendUserID : String)
    (term0 : Termios) (env : LoopEnv) (reads : List ReadRes) : RunOut :=
  let (rOk, rRest) := nextBool env.raws
  match makeRaw rOk term0 with
  | (none, t) =>
      { trace := [Ev.print "Error setting terminal to raw mode:"],
        term := t, outcome := LoopOutcome.returned, readsLeft := reads }
  | (some tok, t) =>
      let r := loopGo friendUsername friendUserID tok
        { term := t, tokCur := some tok } { env with raws := rRest } reads
      { r with trace := Ev.rawEnter :: r.trace }

/-- What the caller `receive_message` observes: it calls the wait loop,
ignores everything about it, and returns `nil` — unless the process
already exited inside the loop. -/
inductive CallerResult where
  | ret (err : Option String)
  | exited (code : Nat)
  deriving Repr, DecidableEq

/-- The tail of `receive_message` from the wait-loop call onward. -/
def receiveMessageTail (friendUsername friendUserID : String)
    (term0 : Termios) (env : LoopEnv) (reads : List ReadRes) : CallerResult :=
  match (waitForCtrlRInReceiveMessage friendUsername friendUserID
      term0 env reads).outcome with
  | LoopOutcome.exited c => CallerResult.exited c
  | _ => CallerResult.ret none

/-- A typical cooked-mode terminal state: `ICANON` and `ECHO` set in
`Lflag`, so entering raw mode genuinely changes the settings. -/
def exampleTerm : Termios :=
  { Iflag := 0, Oflag := 0, Cflag := 0, Lflag := 10,
    Cc := List.replicate 20 0, Ispeed := 0, Ospeed := 0 }

/-- A session whose first key after a successful raw entry is the
interrupt byte 3 (CTRL+C). -/
def interruptRun (fu fid : String) (term0 : Termios) (rs fos : List Bool)
    (cs : List ComposeEnv) (rest : List ReadRes) : RunOut :=
  waitForCtrlRInReceiveMessage fu fid term0
    { raws := true :: rs, fetchOks := fos, composes := cs }
    (ReadRes.ok 3 :: rest)

/-- Claim C1 (evaluating the code at the failing input): on the
interrupt exit path the restore count does NOT match the raw-entry
count. The interrupt branch calls `os.Exit(0)` directly, and `os.Exit`
terminates the process without running deferred calls, so the
`defer restoreForReceiveMessage(...)` never fires: the run ends with
one successful raw entry and zero restore calls. -/
theorem interrupt_restore_count_mismatch (fu fid : String)
    (term0 : Termios) (rs fos : List Bool) (cs : List ComposeEnv)
    (rest : List ReadRes) :
    ((interruptRun fu fid term0 rs fos cs rest).trace.filter
        isRawEnterEv).length = 1 ∧
    ((interruptRun fu fid term0 rs fos cs rest).trace.filter
        isRestoreEv).length = 0 ∧
    (interruptRun fu fid term0 rs fos cs rest).outcome
      = LoopOutcome.exited 0 :=
  ⟨rfl, rfl, rfl⟩

/-- Claim C2 (evaluating the code at the failing input): pressing
CTRL+C as the first key prints the farewell line and exits with code 0
having made zero network calls — but the terminal is NOT restored: no
restore call appears in the trace and the process ends with the device
still holding the raw settings, different from the original cooked
settings. -/
theorem interrupt_farewell_exit0_terminal_left_raw :
    Ev.print "Exiting..."
      ∈ (interruptRun "alice" "u1" exampleTerm [] [] [] []).trace ∧
    (interruptRun "alice" "u1" exampleTerm [] [] [] []).outcome
      = LoopOutcome.exited 0 ∧
    (interruptRun "alice" "u1" exampleTerm [] [] [] []).trace.filter
        isNetworkEv = [] ∧
    (interruptRun "alice" "u1" exampleTerm [] [] [] []).trace.filter
        isRestoreEv = [] ∧
    (interruptRun "alice" "u1" exampleTerm [] [] [] []).term
      = rawify exampleTerm ∧
    (interruptRun "alice" "u1" exampleTerm [] [] [] []).term
      ≠ exampleTerm := by
  refine ⟨?_, rfl, rfl, rfl, rfl, ?_⟩ <;> decide

/-- An unrecognized byte leaves the step as a silent no-op: same state,
empty trace, untouched oracles, and the loop continues. -/
theorem stepByte_unrecognized (fu fid : String) (b : Nat)
    (st : LoopSt) (env : LoopEnv)
    (h18 : b ≠ 18) (h19 : b ≠ 19) (h3 : b ≠ 3) :
    stepByte fu fid b st env = StepOut.cont st [] env := by
  simp [stepByte, h18, h19, h3]

/-- Consuming any block of unrecognized bytes is invisible to the
loop. -/
theorem loopGo_skip_unrecognized (fu fid : String) (tok0 : Termios) :
    ∀ (bs : List Nat), (∀ b ∈ bs, b ≠ 18 ∧ b ≠ 19 ∧ b ≠ 3) →
      ∀ (st : LoopSt) (env : LoopEnv) (rest : List ReadRes),
        loopGo fu fid tok0 st env (bs.map ReadRes.ok ++ rest)
          = loopGo fu fid tok0 st env rest := by
  intro bs
  induction bs with
  | nil => intro _ st env rest; rfl
  | cons b bs ih =>
      intro h st env rest
      have hb := h b (List.mem_cons_self b bs)
      simp only [List.map_cons, List.cons_append, loopGo,
        stepByte_unrecognized fu fid b st env hb.1 hb.2.1 hb.2.2,
        List.nil_append]
      exact ih (fun x hx => h x (List.mem_cons_of_mem b hx)) st env rest

/-- Claim C4: for every sequence of key bytes other than 18 (refresh),
19 (compose) and 3 (interrupt), the raw-mode key loop is unchanged:
each such byte yields a `cont` step with the same state, no trace
events (no output, no state change, no error), and the whole block of
unrecognized bytes can be removed from the input without changing the
run — the loop just blocks on the next read. -/
theorem unrecognized_keys_are_silent (fu fid : String) (tok0 : Termios)
    (bs : List Nat) (h : ∀ b ∈ bs, b ≠ 18 ∧ b ≠ 19 ∧ b ≠ 3) :
    (∀ (b : Nat) (st : LoopSt) (env : LoopEnv), b ∈ bs →
        stepByte fu fid b st env = StepOut.cont st [] env) ∧
    (∀ (st : LoopSt) (env : LoopEnv) (rest : List ReadRes),
        loopGo fu fid tok0 st env (bs.map ReadRes.ok ++ rest)
          = loopGo fu fid tok0 st env rest) := by
  constructor
  · intro b st env hb
    exact stepByte_unrecognized fu fid b st env
      (h b hb).1 (h b hb).2.1 (h b hb).2.2
  · exact loopGo_skip_unrecognized fu fid tok0 bs h

/-- Witness for C4 on the concrete bytes 7, 97 and 120 ('a', 'x'): the
step is a silent no-op and the run over them equals the run over the
empty input. -/
theorem unrecognized_keys_are_silent_witness :
    stepByte "alice" "u1" 97
        { term := rawify exampleTerm, tokCur := some exampleTerm }
        { raws := [], fetchOks := [], composes := [] }
      = StepOut.cont
          { term := rawify exampleTerm, tokCur := some exampleTerm } []
          { raws := [], fetchOks := [], composes := [] } ∧
    loopGo "alice" "u1" exampleTerm
        { term := rawify exampleTerm, tokCur := some exampleTerm }
        { raws := [], fetchOks := [], composes := [] }
        ([7, 97, 120].map ReadRes.ok ++ [])
      = loopGo "alice" "u1" exampleTerm
          { term := rawify exampleTerm, tokCur := some exampleTerm }
          { raws := [], fetchOks := [], composes := [] } [] :=
  ⟨(unrecognized_keys_are_silent "alice" "u1" exampleTerm [7, 97, 120]
      (by decide)).1 97 _ _ (by decide),
   (unrecognized_keys_are_silent "alice" "u1" exampleTerm [7, 97, 120]
      (by decide)).2 _ _ []⟩

/-- The continuation state of a step, when the loop goes on. -/
def contState : StepOut → Option LoopSt
  | StepOut.cont st _ _ => some st
  | _ => none

/-- The trace emitted by one step. -/
def stepTrace : StepOut → List Ev
  | StepOut.cont _ tr _ => tr
  | StepOut.ret _ tr _ => tr
  | StepOut.exit _ _ tr _ => tr

/-- Claim C7: when the entered body is non-empty after trimming and the
send succeeds, `handleSendMessage` returns `nil` and its trace is
exactly prompt prints, the send with the friend's user id, the success
prints, and one `fetchConversation` with the *same* user id (so the
refresh follows the send, before the handler returns); and the compose
branch of the key loop, when raw re-entry succeeds, continues the loop
with the terminal re-set to the raw settings — it emitted a `rawEnter`
— before the next blocking read. -/
theorem send_success_refreshes_same_peer_and_reraws
    (fu fid : String) (cenv : ComposeEnv) (l : String)
    (hline : cenv.line = some l) (hne : goTrimSpace l ≠ "")
    (hsend : cenv.sendOk = true)
    (st : LoopSt) (env : LoopEnv) (rs : List Bool)
    (ccs : List ComposeEnv)
    (hraw : env.raws = true :: rs) (hcomp : env.composes = cenv :: ccs) :
    (handleSendMessage fu fid cenv).errMsg = none ∧
    (handleSendMessage fu fid cenv).trace
      = [Ev.print ("Sending message to: " ++ fu),
         Ev.print "Enter your message: ",
         Ev.print "📤 Sending message...",
         Ev.send fid (goTrimSpace l),
         Ev.print ("✅ Message sent successfully to " ++ fu ++ "!"),
         Ev.print "🔄 Refreshing conversation to show your message...",
         Ev.fetch fid] ++
        (if cenv.fetchOk then []
         else [Ev.print "Error refreshing conversation:"]) ∧
    (handleSendMessage fu fid cenv).trace.filter isFetchEv
      = [Ev.fetch fid] ∧
    contState (stepByte fu fid 19 st env)
      = some { term := rawify (restore st.term st.tokCur).1,
               tokCur := some (restore st.term st.tokCur).1 } ∧
    Ev.rawEnter ∈ stepTrace (stepByte fu fid 19 st env) := by
  have herr : (handleSendMessage fu fid cenv).errMsg = none := by
    by_cases hf : cenv.fetchOk <;>
      simp [handleSendMessage, hline, hne, hsend, hf]
  obtain ⟨eraws, efos, ecomps⟩ := env
  replace hraw : eraws = true :: rs := hraw
  replace hcomp : ecomps = cenv :: ccs := hcomp
  subst hraw
  subst hcomp
  refine ⟨herr, ?_, ?_, ?_, ?_⟩
  · by_cases hf : cenv.fetchOk <;>
      simp [handleSendMessage, hline, hne, hsend, hf]
  · by_cases hf : cenv.fetchOk <;>
      simp [handleSendMessage, hline, hne, hsend, hf, isFetchEv,
        List.filter_append]
  · simp [stepByte, nextBool, nextCompose, herr, contState]
  · simp [stepByte, nextBool, nextCompose, herr, stepTrace]

/-- Witness for C7 at a concrete compose: line `" hi "` (trims to
`"hi"`), send succeeding, raw re-entry succeeding. -/
theorem send_success_refreshes_same_peer_and_reraws_witness :
    (handleSendMessage "bob" "u2"
        { line := some " hi ", sendOk := true, fetchOk := true }).errMsg
      = none ∧
    (handleSendMessage "bob" "u2"
        { line := some " hi ", sendOk := true, fetchOk := true }).trace
      = [Ev.print "Sending message to: bob",
         Ev.print "Enter your message: ",
         Ev.print "📤 Sending message...",
         Ev.send "u2" (goTrimSpace " hi "),
         Ev.print "✅ Message sent successfully to bob!",
         Ev.print "🔄 Refreshing conversation to show your message...",
         Ev.fetch "u2"] ++
        (if ({ line := some " hi ", sendOk := true,
               fetchOk := true } : ComposeEnv).fetchOk then []
         else [Ev.print "Error refreshing conversation:"]) ∧
    (handleSendMessage "bob" "u2"
        { line := some " hi ", sendOk := true, fetchOk := true }).trace.filter
        isFetchEv = [Ev.fetch "u2"] ∧
    contState (stepByte "bob" "u2" 19
        { term := rawify exampleTerm, tokCur := some exampleTerm }
        { raws := [true], fetchOks := [],
          composes := [{ line := some " hi ", sendOk := true,
                         fetchOk := true }] })
      = some { term := rawify (restore (rawify exampleTerm)
                   (some exampleTerm)).1,
               tokCur := some (restore (rawify exampleTerm)
                   (some exampleTerm)).1 } ∧
    Ev.rawEnter ∈ stepTrace (stepByte "bob" "u2" 19
        { term := rawify exampleTerm, tokCur := some exampleTerm }
        { raws := [true], fetchOks := [],
          composes := [{ line := some " hi ", sendOk := true,
                         fetchOk := true }] }) :=
  send_success_refreshes_same_peer_and_reraws "bob" "u2"
    { line := some " hi ", sendOk := true, fetchOk := true } " hi "
    rfl (by decide) rfl
    { term := rawify exampleTerm, tokCur := some exampleTerm }
    { raws := [true], fetchOks := [],
      composes := [{ line := some " hi ", sendOk := true, fetchOk := true }] }
    [] [] rfl rfl

/-- Claim C8, counterexample: when the initial `makeRaw` fails, the
caller of the interactive entry point observes a normal success return
(`nil`), not an error result — the claim that the failure propagates
as a setup error is false. At this concrete input the loop does abort
before any read (`readsLeft` is the whole input), but
`waitForCtrlRInReceiveMessage` only prints the error and returns
`void`, and `receive_message` then returns `nil`. -/
theorem rawfail_counterexample_caller_sees_success :
    receiveMessageTail "alice" "u1" exampleTerm
        { raws := [false], fetchOks := [], composes := [] }
        [ReadRes.ok 99]
      = CallerResult.ret none ∧
    (waitForCtrlRInReceiveMessage "alice" "u1" exampleTerm
        { raws := [false], fetchOks := [], composes := [] }
        [ReadRes.ok 99]).readsLeft = [ReadRes.ok 99] := by
  decide

/-- Claim C8 as amended: if the initial raw-mode entry fails, the loop
aborts before any key byte is read (the input is untouched, no raw
entry happens, the terminal is unchanged) and an error line is
printed; but the failure is only reported as text — the entry point
returns normally and its caller observes a success result (`nil`),
not an error. -/
theorem rawfail_aborts_before_read_but_returns_success
    (fu fid : String) (term0 : Termios) (rs fos : List Bool)
    (cs : List ComposeEnv) (reads : List ReadRes) :
    (waitForCtrlRInReceiveMessage fu fid term0
        { raws := false :: rs, fetchOks := fos, composes := cs }
        reads).trace
      = [Ev.print "Error setting terminal to raw mode:"] ∧
    (waitForCtrlRInReceiveMessage fu fid term0
        { raws := false :: rs, fetchOks := fos, composes := cs }
        reads).outcome = LoopOutcome.returned ∧
    (waitForCtrlRInReceiveMessage fu fid term0
        { raws := false :: rs, fetchOks := fos, composes := cs }
        reads).readsLeft = reads ∧
    (waitForCtrlRInReceiveMessage fu fid term0
        { raws := false :: rs, fetchOks := fos, composes := cs }
        reads).term = term0 ∧
    receiveMessageTail fu fid term0
        { raws := false :: rs, fetchOks := fos, composes := cs } reads
      = CallerResult.ret none :=
  ⟨rfl, rfl, rfl, rfl, rfl⟩

end ChatAppCli
